import Mathlib

/-
Verification of the clutch cellular-security monitor.

Shallow embedding of the detection and correlation code:
  - src/advanced_cellular_security.py : AdvancedIMSICatcherDetector
      (_detect_timing_advance_anomalies, _detect_protocol_anomalies,
       _detect_frequency_anomalies, _detect_power_analysis_attacks)
  - src/cellular_security.py : CellularSecurityMonitor
      (analyze_measurement tower-registry update, _detect_encryption_anomalies)
  - src/cellular_remote_server.py : CellularRemoteMonitoringServer
      (register_device, handle_cellular_threat, store_threat,
       analyze_threat_patterns)

Modelling conventions, applied uniformly:
  - timestamps are integer seconds (Python datetime differences compare
    through total_seconds); rational arithmetic (ℚ) is used exactly where
    the source divides (the timing-advance speed bound) and for the
    confidence constants;
  - Python truthiness on optional numeric fields (None and 0 are falsy,
    an empty list is falsy) is modelled explicitly by py-falsy helpers
    and by nonempty-list guards;
  - wall-clock-derived threat ids, human-readable descriptions and the
    evidence dictionaries do not enter any decision and are projected
    away from the threat records; every field a guard reads is kept;
  - the server is modelled per message: persistent rows as a list, the
    in-memory threat history as a list, connected devices as the list of
    registered device ids.  datetime.now() at processing time is a `now`
    parameter; the ingest driver passes the arriving threat's timestamp.
-/

namespace Clutch

/-- One detected edge-side threat: the decision outputs of a SecurityThreat
record (threat_type, severity, confidence); description/evidence/id are
projected away. -/
structure SecurityThreat where
  threat_type : String
  severity : String
  confidence : ℚ
deriving DecidableEq

/-- Advanced per-sample metrics (AdvancedCellularMetrics), restricted to the
fields the four embedded detectors read.  neighbor_cells entries are never
inspected, only counted, so they are modelled as units; after __post_init__
the field is always a list (an absent list becomes []). -/
structure AdvancedCellularMetrics where
  timestamp : Int
  cell_id : String
  signal_strength : Int
  timing_advance : Option Int
  pci : Option Int
  neighbor_cells : List Unit
  uplink_power : Option Int
  downlink_frequency : Option ℚ
deriving DecidableEq

/-- Python truthiness of an optional rational: None and 0.0 are falsy. -/
def py_falsy_rat : Option ℚ → Bool
  | none => true
  | some x => x == 0

/-- Python truthiness of an optional integer: None and 0 are falsy. -/
def py_falsy_int : Option Int → Bool
  | none => true
  | some x => x == 0

/-- AdvancedIMSICatcherDetector._detect_timing_advance_anomalies.
The buffer is self.measurement_buffer with the current sample already
appended (analyze_advanced_metrics appends before the detectors run), so
the previous sample is buffer[-2].  The source computes
max_distance_change = 300 * time_diff (comment: 300 km/h max speed) and
max_ta_change = max_distance_change / 554, firing when
ta_change > max_ta_change * 2. -/
def detect_timing_advance_anomalies (buffer : List AdvancedCellularMetrics)
    (metrics : AdvancedCellularMetrics) : List SecurityThreat :=
  match metrics.timing_advance with
  | none => []
  | some ta =>
    (if ta = 0 then [⟨"TIMING_ADVANCE_ZERO", "medium", 6/10⟩] else []) ++
    (if buffer.length > 1 then
      match buffer.get? (buffer.length - 2) with
      | some prev_metrics =>
        match prev_metrics.timing_advance with
        | some prev_ta =>
          let ta_change : ℚ := |((ta : ℚ) - (prev_ta : ℚ))|
          let time_diff : ℚ := ((metrics.timestamp - prev_metrics.timestamp : Int) : ℚ)
          let max_distance_change : ℚ := 300 * time_diff
          let max_ta_change : ℚ := max_distance_change / 554
          if ta_change > max_ta_change * 2 then
            [⟨"IMPOSSIBLE_TIMING_ADVANCE_CHANGE", "high", 9/10⟩]
          else []
        | none => []
      | none => []
    else [])

/-- AdvancedIMSICatcherDetector._detect_protocol_anomalies: the PCI range
check, then the neighbour-cell checks guarded by the Python truthiness of
the neighbour list (an empty list skips the whole block). -/
def detect_protocol_anomalies (metrics : AdvancedCellularMetrics) : List SecurityThreat :=
  (match metrics.pci with
   | some pci =>
     if pci < 0 ∨ pci > 503 then [⟨"INVALID_PHYSICAL_CELL_ID", "high", 9/10⟩] else []
   | none => []) ++
  (if metrics.neighbor_cells ≠ [] then
    (let neighbor_count := metrics.neighbor_cells.length
     if neighbor_count = 0 then [⟨"NO_NEIGHBOR_CELLS", "medium", 4/10⟩]
     else if neighbor_count > 20 then [⟨"EXCESSIVE_NEIGHBOR_CELLS", "medium", 5/10⟩]
     else [])
   else [])

/-- The expected_bands table of _detect_frequency_anomalies, in the
source's dict insertion order B3, B7, B20, B1, B8 (low, high) in MHz. -/
def expected_bands : List (ℚ × ℚ) :=
  [(1710, 1785), (2500, 2570), (832, 862), (1920, 1980), (880, 915)]

/-- AdvancedIMSICatcherDetector._detect_frequency_anomalies: returns []
when the downlink frequency is Python-falsy (absent or 0), otherwise the
band check followed by the frequency-hopping check over the last 5
buffered samples with truthy frequencies. -/
def detect_frequency_anomalies (buffer : List AdvancedCellularMetrics)
    (metrics : AdvancedCellularMetrics) : List SecurityThreat :=
  if py_falsy_rat metrics.downlink_frequency then []
  else
    let freq_mhz := metrics.downlink_frequency.getD 0
    let band_match := expected_bands.any (fun b => decide (b.1 ≤ freq_mhz) && decide (freq_mhz ≤ b.2))
    (if band_match = false then [⟨"FREQUENCY_OUT_OF_BAND", "high", 8/10⟩] else []) ++
    (if buffer.length ≥ 5 then
      (let recent_freqs := (buffer.drop (buffer.length - 5)).filterMap
          (fun m => match m.downlink_frequency with
                    | some f => if f = 0 then none else some f
                    | none => none)
       if recent_freqs.dedup.length = recent_freqs.length ∧ recent_freqs.length ≥ 3 then
         [⟨"SUSPICIOUS_FREQUENCY_HOPPING", "medium", 6/10⟩]
       else [])
     else [])

/-- AdvancedIMSICatcherDetector._detect_power_analysis_attacks: returns []
when the uplink power is Python-falsy (absent or 0), otherwise checks the
successive differences of the last 3 truthy uplink powers. -/
def detect_power_analysis_attacks (buffer : List AdvancedCellularMetrics)
    (metrics : AdvancedCellularMetrics) : List SecurityThreat :=
  if py_falsy_int metrics.uplink_power then []
  else if buffer.length ≥ 3 then
    let recent_powers := (buffer.drop (buffer.length - 3)).filterMap
        (fun m => match m.uplink_power with
                  | some p => if p = 0 then none else some p
                  | none => none)
    if recent_powers.length ≥ 3 then
      let power_changes := List.zipWith (fun next cur => next - cur) recent_powers.tail recent_powers
      if (power_changes.foldl max (power_changes.headD 0)) > 10 then
        [⟨"SUSPICIOUS_POWER_CONTROL", "medium", 5/10⟩]
      else []
    else []
  else []

/-- Encryption-strength ranking dict of _detect_encryption_anomalies. -/
def encryption_strength_table : List (String × Int) :=
  [("A5/3", 3), ("A5/1", 2), ("A5/0", 1), ("None", 0), ("Unknown", -1)]

/-- dict.get(tag, -1) over the encryption-strength table. -/
def encryption_strength (tag : String) : Int :=
  (List.lookup tag encryption_strength_table).getD (-1)

/-- A registered cellular tower (CellularTower), restricted to the fields
analyze_measurement's registry update reads and writes. -/
structure CellularTower where
  cell_id : String
  lac : String
  last_seen : Int
  signal_strength_history : List Int
deriving DecidableEq

/-- A basic measurement (CellularMeasurement), restricted to the fields
the embedded registry update and encryption detector read. -/
structure CellularMeasurement where
  timestamp : Int
  tower : CellularTower
  signal_strength : Int
  encryption_status : String
deriving DecidableEq

/-- CellularSecurityMonitor._detect_encryption_anomalies.  The history is
self.measurement_history with the current measurement already appended
(analyze_measurement appends at line 550 before the detectors run), so the
previous measurement is history[-2]. -/
def detect_encryption_anomalies (measurement_history : List CellularMeasurement)
    (measurement : CellularMeasurement) : List SecurityThreat :=
  if measurement_history.length > 1 then
    match measurement_history.get? (measurement_history.length - 2) with
    | some prev_measurement =>
      let prev_strength := encryption_strength prev_measurement.encryption_status
      let current_strength := encryption_strength measurement.encryption_status
      if prev_strength > current_strength ∧ current_strength ≥ 0 then
        [⟨"ENCRYPTION_DOWNGRADE", "medium", 7/10⟩]
      else []
    | none => []
  else []

/-- The tower-registry update fragment of analyze_measurement (lines
539-550): key the tower by cell_id ++ "_" ++ lac; on first sight insert
the measurement's tower object; on a later sight set last_seen and append
the signal strength to the tower's history (no truncation appears in the
source). -/
def update_tower_database (db : List (String × CellularTower))
    (measurement : CellularMeasurement) : List (String × CellularTower) :=
  let tower_key := measurement.tower.cell_id ++ "_" ++ measurement.tower.lac
  match List.lookup tower_key db with
  | none => db ++ [(tower_key, measurement.tower)]
  | some _ =>
    db.map (fun p =>
      if p.1 = tower_key then
        (p.1, { p.2 with
                last_seen := measurement.timestamp,
                signal_strength_history := p.2.signal_strength_history ++ [measurement.signal_strength] })
      else p)

/-- Bool substring test over char lists: does pat occur contiguously in l?
Mirrors Python's `pat in s` (an empty pattern is contained in anything). -/
def contains_sub (pat : List Char) : List Char → Bool
  | [] => pat.isEmpty
  | c :: rest => (pat.isPrefixOf (c :: rest)) || contains_sub pat rest

/-- The correlator's `'IMSI' in t.threat_type.upper()` test. -/
def type_has_imsi (s : String) : Bool :=
  contains_sub "IMSI".toList (s.toList.map Char.toUpper)

/-- severity.lower() in ['high', 'critical'], the high-priority gate of
process_threat_alert. -/
def severity_is_high (s : String) : Bool :=
  (s.toList.map Char.toLower == "high".toList) || (s.toList.map Char.toLower == "critical".toList)

/-- A threat as received and stored by the server (RemoteCellularThreat),
restricted to the fields the server's decisions read; the location /
cellular_data payloads pass through untouched and are projected away. -/
structure RemoteCellularThreat where
  device_id : String
  threat_id : String
  threat_type : String
  severity : String
  timestamp : Int
  description : String
  confidence : ℚ
deriving DecidableEq

/-- The coordinated_attack_detected payload built by analyze_threat_patterns
(primary_threat, related_threats, attack_pattern, device_count); the
human-readable message and the emission timestamp are projected away. -/
structure CoordinationAlert where
  primary : RemoteCellularThreat
  related : List RemoteCellularThreat
  attack_pattern : String
  device_count : Nat
deriving DecidableEq

/-- CellularRemoteMonitoringServer.analyze_threat_patterns: filter the
in-memory history (which already contains the current threat) to threats
of the last hour from other devices, keep the IMSI-typed ones, and if at
least two remain build the coordination alert with
device_count = |set of related device ids| + 1.  Returns the alert that
is fanned out to every connected device, or none. -/
def analyze_threat_patterns (now : Int) (threat_history : List RemoteCellularThreat)
    (threat : RemoteCellularThreat) : Option CoordinationAlert :=
  let recent_threats := threat_history.filter
      (fun t => decide (now - t.timestamp < 3600) && !(t.device_id == threat.device_id))
  let imsi_threats := recent_threats.filter (fun t => type_has_imsi t.threat_type)
  if 2 ≤ imsi_threats.length then
    some { primary := threat,
           related := imsi_threats,
           attack_pattern := "COORDINATED_IMSI_CATCHER",
           device_count := (imsi_threats.map (fun t => t.device_id)).dedup.length + 1 }
  else none

/-- Messages the server sends to a client socket, restricted to the
variants and fields the claims read. -/
inductive ServerReply where
  | registration_success (device_id : String)
  | error_reply (message : String)
  | threat_acknowledged (threat_id : String)
  | high_priority_alert (threat : RemoteCellularThreat)
  | coordinated_attack (alert : CoordinationAlert)
  | heartbeat_ack
deriving DecidableEq

/-- Fields of a register_device message; dict.get misses are None. -/
structure RegisterData where
  device_id : Option String
  device_name : Option String
  api_key : Option String
deriving DecidableEq

/-- Python truthiness of an optional string: None and "" are falsy. -/
def py_falsy_str : Option String → Bool
  | none => true
  | some s => s == ""

/-- authenticate_device: set membership of the api key (None is never in
the key set). -/
def authenticate_device (api_keys : List String) : Option String → Bool
  | none => false
  | some k => decide (k ∈ api_keys)

/-- CellularRemoteMonitoringServer.register_device: authentication check
first (error "Authentication failed"), then the device-id presence check
(error "Device ID required"), else record the device and reply
registration_success.  Returns the connected-device list, the replies
sent to this socket, and the boolean handed back to the message loop. -/
def register_device (api_keys : List String) (connected_devices : List String)
    (device_data : RegisterData) : List String × List ServerReply × Bool :=
  if ¬ (authenticate_device api_keys device_data.api_key = true) then
    (connected_devices, [ServerReply.error_reply "Authentication failed"], false)
  else if py_falsy_str device_data.device_id = true then
    (connected_devices, [ServerReply.error_reply "Device ID required"], false)
  else
    let device_id := device_data.device_id.getD ""
    ((if device_id ∈ connected_devices then connected_devices else connected_devices ++ [device_id]),
     [ServerReply.registration_success device_id], true)

/-- The message loop's register branch (handle_client_message lines
419-422): the session's device binding is replaced only when
register_device returned True. -/
def session_after_register (session_device : Option String) (device_data : RegisterData)
    (success : Bool) : Option String :=
  if success then device_data.device_id else session_device

/-- Fields of a cellular_threat message after parsing; the uuid4 and
"now" fallbacks for absent fields are outside the model (the claims are
about messages that carry their threat_id). -/
structure ThreatMsg where
  threat_id : String
  threat_type : String
  severity : String
  timestamp : Int
  description : String
  confidence : ℚ
deriving DecidableEq

/-- The RemoteCellularThreat built at the top of handle_cellular_threat. -/
def mk_remote_threat (device_id : String) (msg : ThreatMsg) : RemoteCellularThreat :=
  { device_id := device_id,
    threat_id := msg.threat_id,
    threat_type := msg.threat_type,
    severity := msg.severity,
    timestamp := msg.timestamp,
    description := msg.description,
    confidence := msg.confidence }

/-- store_threat: INSERT OR REPLACE keyed by the UNIQUE threat_id column —
any existing row with the same threat_id is replaced by the new row. -/
def store_threat (db : List RemoteCellularThreat) (threat : RemoteCellularThreat) :
    List RemoteCellularThreat :=
  db.filter (fun r => !(r.threat_id == threat.threat_id)) ++ [threat]

/-- The coordinated_attack_detected fan-out messages produced by one run
of analyze_threat_patterns (one message when the correlator fired). -/
def coordination_messages : Option CoordinationAlert → List ServerReply
  | some alert => [ServerReply.coordinated_attack alert]
  | none => []

/-- Server state: persistent rows, in-memory history, registered devices. -/
structure ServerState where
  connected_devices : List String
  threat_history : List RemoteCellularThreat
  db : List RemoteCellularThreat
deriving DecidableEq

/-- CellularRemoteMonitoringServer.handle_cellular_threat for a message
from device_id: build the threat, store it, append it to the in-memory
history, run process_threat_alert (high-priority fan-out, then the
correlator; threat_correlation defaults to enabled), then acknowledge to
the submitting device.  The returned reply list is what the submitting
device's socket receives, in order: fan-outs reach it only while it is
connected, and the acknowledgement is sent only while it is connected. -/
def handle_cellular_threat (now : Int) (st : ServerState) (device_id : String)
    (msg : ThreatMsg) : ServerState × List ServerReply :=
  let threat := mk_remote_threat device_id msg
  let db' := store_threat st.db threat
  let threat_history' := st.threat_history ++ [threat]
  let broadcasts : List ServerReply :=
    (if severity_is_high threat.severity then [ServerReply.high_priority_alert threat] else []) ++
    coordination_messages (analyze_threat_patterns now threat_history' threat)
  let to_device :=
    (if device_id ∈ st.connected_devices then broadcasts else []) ++
    (if device_id ∈ st.connected_devices then [ServerReply.threat_acknowledged threat.threat_id] else [])
  ({ st with db := db', threat_history := threat_history' }, to_device)

/-- Is a reply a threat_acknowledged message? -/
def is_ack : ServerReply → Bool
  | ServerReply.threat_acknowledged _ => true
  | _ => false

/-- Ingest driver for the correlator: threats arrive in order, each is
appended to the history before analyze_threat_patterns runs (as
handle_cellular_threat does), and datetime.now() at processing time is
the arriving threat's timestamp.  Returns the emitted coordination
alerts, each paired with its emission time. -/
def correlator_run (msgs : List RemoteCellularThreat) : List (Int × CoordinationAlert) :=
  (msgs.foldl
    (fun (acc : List RemoteCellularThreat × List (Int × CoordinationAlert)) t =>
      let hist := acc.1 ++ [t]
      match analyze_threat_patterns t.timestamp hist t with
      | some a => (hist, acc.2 ++ [(t.timestamp, a)])
      | none => (hist, acc.2))
    ([], [])).2

/-- Distinct device ids over an alert's primary and related threats, as
the set the fan-out reports. -/
def alert_device_finset (a : CoordinationAlert) : Finset String :=
  (a.primary.device_id :: a.related.map (fun t => t.device_id)).toFinset

/-! Concrete samples used by witnesses and counterexamples. -/

/-- Previous sample for the timing-advance scenario: t = 0 s, TA = 0. -/
def ta_prev_sample : AdvancedCellularMetrics :=
  { timestamp := 0, cell_id := "T1", signal_strength := -70, timing_advance := some 0,
    pci := none, neighbor_cells := [], uplink_power := none, downlink_frequency := none }

/-- Current sample for the timing-advance scenario: t = 1 s, TA = 1, so
Δt = 1 s and ΔTA = 1. -/
def ta_cur_sample : AdvancedCellularMetrics :=
  { timestamp := 1, cell_id := "T1", signal_strength := -70, timing_advance := some 1,
    pci := none, neighbor_cells := [], uplink_power := none, downlink_frequency := none }

/-- A sample whose neighbour-cell list is present with count 0. -/
def no_neighbor_sample : AdvancedCellularMetrics :=
  { timestamp := 0, cell_id := "T1", signal_strength := -70, timing_advance := none,
    pci := none, neighbor_cells := [], uplink_power := none, downlink_frequency := none }

/-- A sample with PCI 504 (out of the LTE range). -/
def pci_504_sample : AdvancedCellularMetrics :=
  { timestamp := 0, cell_id := "T1", signal_strength := -70, timing_advance := none,
    pci := some 504, neighbor_cells := [], uplink_power := none, downlink_frequency := none }

/-- A sample whose optional downlink frequency and uplink power are both
present with value 0. -/
def zero_fields_sample : AdvancedCellularMetrics :=
  { timestamp := 0, cell_id := "T1", signal_strength := -70, timing_advance := none,
    pci := none, neighbor_cells := [], uplink_power := some 0, downlink_frequency := some 0 }

/-- C2.  At Δt = 1 s and ΔTA = 1 the detector emits nothing: the source
multiplies the raw constant 300 by a time difference in seconds, so its
threshold is 2 · 300/554 ≈ 1.083 and ΔTA = 1 does not exceed it — even
though its own comment says 300 km/h, under which the claimed threshold
2 · (300 km/h · 1 s)/554 m ≈ 0.30 would fire (third conjunct). -/
theorem timing_advance_unit_bug :
    detect_timing_advance_anomalies [ta_prev_sample, ta_cur_sample] ta_cur_sample = [] ∧
    ¬ ((1 : ℚ) > (300 * 1 / 554) * 2) ∧
    ((1 : ℚ) > 2 * ((300 * 1000 / 3600 * 1) / 554)) := by
  refine ⟨?_, by norm_num, by norm_num⟩
  norm_num [detect_timing_advance_anomalies, ta_prev_sample, ta_cur_sample, List.get?]

/-- C6.  On a sample whose neighbour-cell list is present with count 0 the
protocol detector emits nothing at all: the source guards the whole
neighbour block with the truthiness of the list, so the count-0 branch is
unreachable and no NO_NEIGHBOR_CELLS threat is produced. -/
theorem no_neighbor_cells_dead_code :
    detect_protocol_anomalies no_neighbor_sample = [] ∧
    no_neighbor_sample.neighbor_cells.length = 0 :=
  ⟨rfl, rfl⟩

/-- C9.  For a sample with PCI present, the protocol detector emits
INVALID_PHYSICAL_CELL_ID with severity high and confidence 0.9 exactly
when the PCI lies outside [0, 503]. -/
theorem invalid_pci_iff :
    ∀ (metrics : AdvancedCellularMetrics) (p : Int), metrics.pci = some p →
      ((⟨"INVALID_PHYSICAL_CELL_ID", "high", 9/10⟩ : SecurityThreat) ∈
          detect_protocol_anomalies metrics ↔ (p < 0 ∨ p > 503)) := by
  intro metrics p hp
  have hnb : (⟨"INVALID_PHYSICAL_CELL_ID", "high", 9/10⟩ : SecurityThreat) ∉
      (if metrics.neighbor_cells ≠ [] then
        (let neighbor_count := metrics.neighbor_cells.length
         if neighbor_count = 0 then [⟨"NO_NEIGHBOR_CELLS", "medium", 4/10⟩]
         else if neighbor_count > 20 then [⟨"EXCESSIVE_NEIGHBOR_CELLS", "medium", 5/10⟩]
         else [])
       else []) := by
    split
    · dsimp only
      split
      · simp
      · split <;> simp
    · simp
  constructor
  · intro hmem
    simp only [detect_protocol_anomalies, hp, List.mem_append] at hmem
    rcases hmem with hmem | hmem
    · by_cases hc : p < 0 ∨ p > 503
      · exact hc
      · rw [if_neg hc] at hmem
        cases hmem
    · exact absurd hmem hnb
  · intro hc
    simp only [detect_protocol_anomalies, hp, List.mem_append]
    left
    rw [if_pos hc]
    exact List.mem_singleton.mpr rfl

/-- Witness for invalid_pci_iff: PCI = 504 fires. -/
theorem invalid_pci_iff_witness :
    (⟨"INVALID_PHYSICAL_CELL_ID", "high", 9/10⟩ : SecurityThreat) ∈
      detect_protocol_anomalies pci_504_sample :=
  (invalid_pci_iff pci_504_sample 504 rfl).mpr (Or.inr (by decide))

/-- C10.  A downlink frequency equal to 0 (like an absent one) makes the
frequency detector return the empty list, and an uplink power equal to 0
(like an absent one) makes the power-control detector return the empty
list: Python truthiness treats the zero value as an absent field. -/
theorem zero_optional_field_skips_detectors :
    ∀ (buffer : List AdvancedCellularMetrics) (metrics : AdvancedCellularMetrics),
      ((metrics.downlink_frequency = some 0 ∨ metrics.downlink_frequency = none) →
        detect_frequency_anomalies buffer metrics = []) ∧
      ((metrics.uplink_power = some 0 ∨ metrics.uplink_power = none) →
        detect_power_analysis_attacks buffer metrics = []) := by
  intro buffer metrics
  constructor
  · rintro (h | h) <;> simp [detect_frequency_anomalies, py_falsy_rat, h]
  · rintro (h | h) <;> simp [detect_power_analysis_attacks, py_falsy_int, h]

/-- Witness for zero_optional_field_skips_detectors at the zero-valued
sample. -/
theorem zero_optional_field_skips_detectors_witness :
    detect_frequency_anomalies [] zero_fields_sample = [] ∧
    detect_power_analysis_attacks [] zero_fields_sample = [] :=
  ⟨(zero_optional_field_skips_detectors [] zero_fields_sample).1 (Or.inl rfl),
   (zero_optional_field_skips_detectors [] zero_fields_sample).2 (Or.inl rfl)⟩

/-- Indexing a list right after a left part of known length. -/
theorem get?_append_self_length {α : Type} :
    ∀ (pre l : List α), (pre ++ l).get? pre.length = l.get? 0 := by
  intro pre l
  induction pre with
  | nil => rfl
  | cons x xs ih => simpa [List.get?] using ih

/-- The tower shared by the concrete basic measurements. -/
def tower_a : CellularTower :=
  { cell_id := "A", lac := "1", last_seen := 0, signal_strength_history := [] }

/-- A measurement with encryption tag Unknown. -/
def meas_unknown : CellularMeasurement :=
  { timestamp := 0, tower := tower_a, signal_strength := -70, encryption_status := "Unknown" }

/-- A measurement with encryption tag A5/1. -/
def meas_a51 : CellularMeasurement :=
  { timestamp := 1, tower := tower_a, signal_strength := -70, encryption_status := "A5/1" }

/-- C7.  For any pair of consecutive measurements (the current one already
appended to the history), the encryption detector fires exactly when the
previous rank is strictly greater than the current rank and the current
rank is ≥ 0; a fired threat is ENCRYPTION_DOWNGRADE, medium, 0.7; and in
particular the Unknown→A5/1 transition does not fire. -/
theorem encryption_downgrade_iff :
    ∀ (pre : List CellularMeasurement) (m1 m2 : CellularMeasurement),
      (detect_encryption_anomalies (pre ++ [m1, m2]) m2 ≠ [] ↔
        (encryption_strength m1.encryption_status > encryption_strength m2.encryption_status ∧
         encryption_strength m2.encryption_status ≥ 0)) ∧
      (∀ t ∈ detect_encryption_anomalies (pre ++ [m1, m2]) m2,
        t = ⟨"ENCRYPTION_DOWNGRADE", "medium", 7/10⟩) ∧
      (m1.encryption_status = "Unknown" → m2.encryption_status = "A5/1" →
        detect_encryption_anomalies (pre ++ [m1, m2]) m2 = []) := by
  intro pre m1 m2
  have hcond : (pre ++ [m1, m2]).length > 1 := by simp
  have hget : (pre ++ [m1, m2]).get? ((pre ++ [m1, m2]).length - 2) = some m1 := by
    have hlen : (pre ++ [m1, m2]).length - 2 = pre.length := by simp
    rw [hlen]
    exact get?_append_self_length pre [m1, m2]
  have key : detect_encryption_anomalies (pre ++ [m1, m2]) m2 =
      (if encryption_strength m1.encryption_status > encryption_strength m2.encryption_status ∧
          encryption_strength m2.encryption_status ≥ 0 then
        [⟨"ENCRYPTION_DOWNGRADE", "medium", 7/10⟩] else []) := by
    rw [detect_encryption_anomalies, if_pos hcond, hget]
  refine ⟨?_, ?_, ?_⟩
  · rw [key]
    by_cases h : encryption_strength m1.encryption_status > encryption_strength m2.encryption_status ∧
        encryption_strength m2.encryption_status ≥ 0 <;> simp [h]
  · rw [key]
    intro t ht
    by_cases h : encryption_strength m1.encryption_status > encryption_strength m2.encryption_status ∧
        encryption_strength m2.encryption_status ≥ 0
    · rw [if_pos h] at ht
      simpa using ht
    · rw [if_neg h] at ht
      cases ht
  · intro h1 h2
    rw [key, h1, h2, if_neg (by decide)]

/-- Witness for encryption_downgrade_iff: Unknown→A5/1 emits nothing. -/
theorem encryption_downgrade_iff_witness :
    detect_encryption_anomalies [meas_unknown, meas_a51] meas_a51 = [] :=
  (encryption_downgrade_iff [] meas_unknown meas_a51).2.2 rfl rfl

/-- Looking a key up after a key-preserving in-place update of an
association list. -/
theorem lookup_map_update :
    ∀ (db : List (String × CellularTower)) (key : String) (g : CellularTower → CellularTower),
      List.lookup key (db.map (fun p => if p.1 = key then (p.1, g p.2) else p)) =
        (List.lookup key db).map g := by
  intro db key g
  induction db with
  | nil => rfl
  | cons hd tl ih =>
    obtain ⟨k, v⟩ := hd
    by_cases h : k = key
    · subst h
      have hif : (if (k, v).1 = k then ((k, v).1, g (k, v).2) else (k, v)) = (k, g v) := by
        simp
      rw [List.map_cons, hif]
      simp [List.lookup, ih]
    · have h' : (key == k) = false := by
        simpa [beq_iff_eq] using fun e => h e.symm
      have hif : (if (k, v).1 = key then ((k, v).1, g (k, v).2) else (k, v)) = (k, v) := by
        simp [h]
      rw [List.map_cons, hif]
      simp [List.lookup, h', ih]

/-- C8 (amended).  Analysing a measurement against an already-known tower
replaces that tower's entry with one whose last_seen is the measurement
timestamp and whose signal-strength history is the old history with the
measurement's signal strength appended — the history is never truncated. -/
theorem tower_update_appends_unbounded :
    ∀ (db : List (String × CellularTower)) (m : CellularMeasurement) (t : CellularTower),
      List.lookup (m.tower.cell_id ++ "_" ++ m.tower.lac) db = some t →
      List.lookup (m.tower.cell_id ++ "_" ++ m.tower.lac) (update_tower_database db m) =
        some { t with last_seen := m.timestamp,
                      signal_strength_history := t.signal_strength_history ++ [m.signal_strength] } := by
  intro db m t h
  rw [update_tower_database]
  rw [h]
  rw [lookup_map_update db (m.tower.cell_id ++ "_" ++ m.tower.lac)
        (fun tw => { tw with last_seen := m.timestamp,
                             signal_strength_history := tw.signal_strength_history ++ [m.signal_strength] })]
  rw [h]
  rfl

/-- Witness for tower_update_appends_unbounded at a one-entry registry. -/
theorem tower_update_appends_unbounded_witness :
    List.lookup ("A" ++ "_" ++ "1") (update_tower_database [("A_1", tower_a)] meas_unknown) =
      some { tower_a with last_seen := 0,
                          signal_strength_history := tower_a.signal_strength_history ++ [-70] } :=
  tower_update_appends_unbounded [("A_1", tower_a)] meas_unknown tower_a rfl

/-- Registry contents after n ingests of meas_unknown starting from the
empty registry. -/
def history_growth_run (n : Nat) : List (String × CellularTower) :=
  (List.replicate n meas_unknown).foldl update_tower_database []

/-- Each further ingest of meas_unknown appends one entry to the known
tower's signal history. -/
theorem history_growth_lookup :
    ∀ (n : Nat) (l : List Int),
      (List.replicate n meas_unknown).foldl update_tower_database
          [("A_1", { cell_id := "A", lac := "1", last_seen := 0, signal_strength_history := l })] =
        [("A_1", { cell_id := "A", lac := "1", last_seen := 0,
                   signal_strength_history := l ++ List.replicate n (-70) })] := by
  intro n
  induction n with
  | zero => intro l; simp
  | succ k ih =>
    intro l
    rw [List.replicate_succ, List.foldl_cons]
    have hstep : update_tower_database
        [("A_1", { cell_id := "A", lac := "1", last_seen := 0, signal_strength_history := l })]
        meas_unknown =
        [("A_1", { cell_id := "A", lac := "1", last_seen := 0,
                   signal_strength_history := l ++ [-70] })] := rfl
    rw [hstep, ih (l ++ [-70])]
    simp [List.replicate_succ, List.append_assoc]

/-- C8 counterexample.  After 1,002 ingests of the same tower the stored
signal-strength history holds 1,001 entries: the cap of 1,000 claimed by
the specification does not exist in the code. -/
theorem signal_history_exceeds_cap :
    (List.lookup "A_1" (history_growth_run 1002)).map
        (fun t => t.signal_strength_history.length) = some 1001 ∧
    ¬ (1001 ≤ 1000) := by
  constructor
  · have h0 : history_growth_run 1002 =
        [("A_1", { cell_id := "A", lac := "1", last_seen := 0,
                   signal_strength_history := List.replicate 1001 (-70) })] := by
      show (List.replicate 1002 meas_unknown).foldl update_tower_database [] = _
      rw [List.replicate_succ, List.foldl_cons]
      have hins : update_tower_database [] meas_unknown =
          [("A_1", { cell_id := "A", lac := "1", last_seen := 0,
                     signal_strength_history := [] })] := rfl
      rw [hins]
      have hgl := history_growth_lookup 1001 []
      rw [List.nil_append] at hgl
      exact hgl
    rw [h0]
    have hlk : List.lookup "A_1"
        [("A_1", ({ cell_id := "A", lac := "1", last_seen := 0,
                    signal_strength_history := List.replicate 1001 (-70) } : CellularTower))] =
        some { cell_id := "A", lac := "1", last_seen := 0,
               signal_strength_history := List.replicate 1001 (-70) } := rfl
    rw [hlk]
    show some (List.replicate 1001 (-70 : Int)).length = some 1001
    rw [List.length_replicate]
  · decide

/-! Server-side claims: concrete threats, helper lemmas, theorems. -/

/-- An IMSI-typed threat from device B at t = 0 s. -/
def th_b : RemoteCellularThreat :=
  { device_id := "B", threat_id := "tb1", threat_type := "IMSI_CATCHER_SUSPECTED",
    severity := "high", timestamp := 0, description := "", confidence := 0 }

/-- A second IMSI-typed threat from device B at t = 10 s. -/
def th_b2 : RemoteCellularThreat :=
  { device_id := "B", threat_id := "tb2", threat_type := "IMSI_CATCHER_SUSPECTED",
    severity := "high", timestamp := 10, description := "", confidence := 0 }

/-- An IMSI-typed threat from device C at t = 10 s. -/
def th_c : RemoteCellularThreat :=
  { device_id := "C", threat_id := "tc1", threat_type := "IMSI_CATCHER_SUSPECTED",
    severity := "high", timestamp := 10, description := "", confidence := 0 }

/-- An IMSI-typed threat from device A at t = 20 s. -/
def th_a : RemoteCellularThreat :=
  { device_id := "A", threat_id := "ta1", threat_type := "IMSI_CATCHER_SUSPECTED",
    severity := "high", timestamp := 20, description := "", confidence := 0 }

/-- A further IMSI-typed threat from device A at t = 30 s. -/
def th_a2 : RemoteCellularThreat :=
  { device_id := "A", threat_id := "ta2", threat_type := "IMSI_CATCHER_SUSPECTED",
    severity := "high", timestamp := 30, description := "", confidence := 0 }

/-- The alert the correlator emits when A's threat arrives after B's and
C's. -/
def alert_bca : CoordinationAlert :=
  { primary := th_a, related := [th_b, th_c],
    attack_pattern := "COORDINATED_IMSI_CATCHER", device_count := 3 }

/-- C1 counterexample.  Two IMSI threats from the one other device B
followed by a threat from A make the correlator broadcast with
device_count = 2 and only 2 distinct device ids over primary and related
threats — fewer than the 3 the claim asserts. -/
theorem coordinated_device_count_two :
    (correlator_run [th_b, th_b2, th_a]).map (fun p => p.2.device_count) = [2] ∧
    (correlator_run [th_b, th_b2, th_a]).map (fun p => (alert_device_finset p.2).card) = [2] ∧
    ¬ (3 ≤ 2) := by
  refine ⟨by decide, by decide, by decide⟩

/-- Counting distinct device ids over an alerting trio whose related
threats all come from devices other than the primary one. -/
theorem device_count_aux :
    ∀ (d : String) (l : List RemoteCellularThreat),
      (∀ u ∈ l, u.device_id ≠ d) → 2 ≤ l.length →
      ((l.map (fun t => t.device_id)).dedup.length + 1 =
        (d :: l.map (fun t => t.device_id)).dedup.length ∧
       2 ≤ (l.map (fun t => t.device_id)).dedup.length + 1) := by
  intro d l hne hlen
  have hnotmem : d ∉ l.map (fun t => t.device_id) := by
    intro hm
    obtain ⟨u, hu, he⟩ := List.mem_map.mp hm
    exact hne u hu he
  constructor
  · rw [List.dedup_cons_of_not_mem hnotmem]
    rfl
  · have hl : l ≠ [] := by
      intro e
      subst e
      simp at hlen
    have hm : l.map (fun t => t.device_id) ≠ [] := by
      simpa [List.map_eq_nil_iff] using hl
    have hd : (l.map (fun t => t.device_id)).dedup ≠ [] := by
      simpa [List.dedup_eq_nil] using hm
    have := List.length_pos.mpr hd
    omega

/-- C1 (amended).  Whenever the correlator broadcasts, device_count equals
the number of distinct device ids over primary and related threats, and
that number is at least 2 (two related threats guarantee one related
device plus the primary device, not two related devices). -/
theorem coordinated_device_count_ge_two :
    ∀ (now : Int) (hist : List RemoteCellularThreat) (threat : RemoteCellularThreat)
      (a : CoordinationAlert),
      analyze_threat_patterns now hist threat = some a →
      (a.device_count =
        (a.primary.device_id :: a.related.map (fun t => t.device_id)).dedup.length ∧
       2 ≤ a.device_count) := by
  intro now hist threat a h
  simp only [analyze_threat_patterns] at h
  split at h
  · rename_i hc
    injection h with h2
    subst h2
    refine device_count_aux threat.device_id _ ?_ hc
    intro u hu
    have hu1 := List.mem_of_mem_filter hu
    have hp := List.of_mem_filter hu1
    simp only [Bool.and_eq_true, Bool.not_eq_true', beq_eq_false_iff_ne,
      decide_eq_true_eq] at hp
    exact hp.2
  · cases h

/-- Witness for coordinated_device_count_ge_two at the three-device trio. -/
theorem coordinated_device_count_ge_two_witness :
    alert_bca.device_count =
        (alert_bca.primary.device_id ::
          alert_bca.related.map (fun t => t.device_id)).dedup.length ∧
      2 ≤ alert_bca.device_count :=
  coordinated_device_count_ge_two 20 [th_b, th_c, th_a] th_a alert_bca (by decide)

/-- Filtering with a pointwise-weaker predicate keeps at least as many
elements. -/
theorem length_filter_le_of_imp {α : Type} :
    ∀ (l : List α) (p q : α → Bool),
      (∀ a ∈ l, p a = true → q a = true) →
      (l.filter p).length ≤ (l.filter q).length := by
  intro l p q h
  induction l with
  | nil => simp
  | cons x xs ih =>
    have ih' := ih (fun a ha hp => h a (List.mem_cons_of_mem _ ha) hp)
    by_cases hp : p x = true
    · have hq := h x (List.mem_cons_self _ _) hp
      simp only [List.filter_cons, hp, hq, if_true, List.length_cons]
      exact Nat.add_le_add_right ih' 1
    · have hp' : p x = false := by
        revert hp
        cases p x <;> simp
      by_cases hq : q x = true
      · simp only [List.filter_cons, hp', hq, if_true, List.length_cons]
        simp only [Bool.false_eq_true, if_false]
        exact le_trans ih' (Nat.le_succ _)
      · have hq' : q x = false := by
          revert hq
          cases q x <;> simp
        simp only [List.filter_cons, hp', hq', Bool.false_eq_true, if_false]
        exact ih'

/-- C5 (amended).  The correlator keeps no idempotency state: once it has
fired for threat t with alert a, any further threat from the same device
fires again whenever a's related threats are still inside the 60-minute
window, however the history has grown — in particular a repeat threat
from a device of an already-alerted set produces a new coordinated
alert. -/
theorem coordinated_alert_no_idempotency :
    ∀ (now now' : Int) (hist ext : List RemoteCellularThreat)
      (t t' : RemoteCellularThreat) (a : CoordinationAlert),
      analyze_threat_patterns now hist t = some a →
      t'.device_id = t.device_id →
      (∀ u ∈ a.related, now' - u.timestamp < 3600) →
      (analyze_threat_patterns now' (hist ++ ext) t').isSome = true := by
  intro now now' hist ext t t' a h hdev hwin
  simp only [analyze_threat_patterns] at h ⊢
  split at h
  · rename_i hc
    injection h with h2
    subst h2
    have himp : ∀ u ∈ hist,
        (type_has_imsi u.threat_type &&
          (decide (now - u.timestamp < 3600) && !(u.device_id == t.device_id))) = true →
        (type_has_imsi u.threat_type &&
          (decide (now' - u.timestamp < 3600) && !(u.device_id == t'.device_id))) = true := by
      intro u hu hcomb
      simp only [Bool.and_eq_true, Bool.not_eq_true', beq_eq_false_iff_ne,
        decide_eq_true_eq] at hcomb ⊢
      obtain ⟨himsi, hrec, hne⟩ := hcomb
      refine ⟨himsi, ?_, by rw [hdev]; exact hne⟩
      apply hwin
      exact List.mem_filter.mpr ⟨List.mem_filter.mpr ⟨hu, by
        simp only [Bool.and_eq_true, Bool.not_eq_true', beq_eq_false_iff_ne,
          decide_eq_true_eq]
        exact ⟨hrec, hne⟩⟩, himsi⟩
    have hbase : 2 ≤ (hist.filter (fun u =>
        type_has_imsi u.threat_type &&
          (decide (now - u.timestamp < 3600) && !(u.device_id == t.device_id)))).length := by
      rw [← List.filter_filter]
      exact hc
    have hbound : 2 ≤ ((hist ++ ext).filter (fun u =>
        type_has_imsi u.threat_type &&
          (decide (now' - u.timestamp < 3600) && !(u.device_id == t'.device_id)))).length := by
      rw [List.filter_append, List.length_append]
      exact le_trans (le_trans hbase (length_filter_le_of_imp hist _ _ himp))
        (Nat.le_add_right _ _)
    rw [← List.filter_filter] at hbound
    rw [if_pos hbound]
    rfl
  · cases h

/-- Witness for coordinated_alert_no_idempotency: A's repeat threat at
t = 30 s re-fires the correlator. -/
theorem coordinated_alert_no_idempotency_witness :
    (analyze_threat_patterns 30 ([th_b, th_c, th_a] ++ [th_a2]) th_a2).isSome = true :=
  coordinated_alert_no_idempotency 20 30 [th_b, th_c, th_a] [th_a2] th_a th_a2 alert_bca
    (by decide) rfl (by decide)

/-- C5 counterexample.  Running the ingest loop over B, C, A, then A again
(all IMSI-typed, seconds apart) broadcasts two coordinated alerts with
the identical device set {A, B, C}, 10 seconds apart — inside one
60-minute window. -/
theorem coordinated_realert_same_device_set :
    (correlator_run [th_b, th_c, th_a, th_a2]).map
        (fun p => (p.1, alert_device_finset p.2)) =
      [(20, {"A", "B", "C"}), (30, {"A", "B", "C"})] ∧
    ((30 : Int) - 20 < 3600) := by
  refine ⟨by decide, by decide⟩

/-- A register message with a valid key but an empty device id. -/
def reg_empty_id : RegisterData :=
  { device_id := some "", device_name := some "Dev", api_key := some "K" }

/-- A fully valid register message. -/
def reg_ok : RegisterData :=
  { device_id := some "D", device_name := some "Dev", api_key := some "K" }

/-- C3 counterexample.  With a valid api key and an empty device id the
server replies error "Device ID required" — not the
error "Authentication failed" the claim asserts for every failure. -/
theorem register_empty_device_id_reply :
    (register_device ["K"] [] reg_empty_id).2.1 =
        [ServerReply.error_reply "Device ID required"] ∧
    (register_device ["K"] [] reg_empty_id).2.1 ≠
        [ServerReply.error_reply "Authentication failed"] := by
  refine ⟨by decide, by decide⟩

/-- C3 (amended).  register_device replies registration_success and
registers the device exactly when the api key is valid and the device id
is non-empty; an invalid key draws error "Authentication failed", a
valid key with a missing/empty device id draws error "Device ID
required"; in both failure cases the device table and the session's
device binding are left unchanged (the connection is not closed). -/
theorem register_device_behavior :
    ∀ (api_keys connected : List String) (d : RegisterData)
      (session_device : Option String),
      (authenticate_device api_keys d.api_key = true → py_falsy_str d.device_id = false →
        (register_device api_keys connected d).2.2 = true ∧
        (register_device api_keys connected d).2.1 =
          [ServerReply.registration_success (d.device_id.getD "")] ∧
        d.device_id.getD "" ∈ (register_device api_keys connected d).1 ∧
        session_after_register session_device d (register_device api_keys connected d).2.2 =
          d.device_id) ∧
      (authenticate_device api_keys d.api_key = false →
        (register_device api_keys connected d).2.2 = false ∧
        (register_device api_keys connected d).2.1 =
          [ServerReply.error_reply "Authentication failed"] ∧
        (register_device api_keys connected d).1 = connected ∧
        session_after_register session_device d (register_device api_keys connected d).2.2 =
          session_device) ∧
      (authenticate_device api_keys d.api_key = true → py_falsy_str d.device_id = true →
        (register_device api_keys connected d).2.2 = false ∧
        (register_device api_keys connected d).2.1 =
          [ServerReply.error_reply "Device ID required"] ∧
        (register_device api_keys connected d).1 = connected ∧
        session_after_register session_device d (register_device api_keys connected d).2.2 =
          session_device) := by
  intro api_keys connected d session_device
  refine ⟨?_, ?_, ?_⟩
  · intro h1 h2
    simp only [register_device, session_after_register, h1, h2]
    simp only [not_true, if_false, Bool.false_eq_true, if_true]
    by_cases hm : d.device_id.getD "" ∈ connected <;> simp [hm]
  · intro h1
    simp [register_device, session_after_register, h1]
  · intro h1 h2
    simp [register_device, session_after_register, h1, h2]

/-- Witness for register_device_behavior: a valid registration. -/
theorem register_device_behavior_witness :
    (register_device ["K"] [] reg_ok).2.2 = true ∧
    (register_device ["K"] [] reg_ok).2.1 =
      [ServerReply.registration_success (reg_ok.device_id.getD "")] ∧
    reg_ok.device_id.getD "" ∈ (register_device ["K"] [] reg_ok).1 ∧
    session_after_register none reg_ok (register_device ["K"] [] reg_ok).2.2 =
      reg_ok.device_id :=
  (register_device_behavior ["K"] [] reg_ok none).1 (by decide) (by decide)

/-- One stored row carries the stored threat_id after INSERT OR REPLACE. -/
theorem store_threat_count :
    ∀ (db : List RemoteCellularThreat) (threat : RemoteCellularThreat),
      ((store_threat db threat).filter
          (fun r => r.threat_id == threat.threat_id)).length = 1 := by
  intro db threat
  simp [store_threat, List.filter_append, List.filter_filter, Bool.and_not_self]

/-- Fan-out messages are never threat_acknowledged replies. -/
theorem is_ack_filter_eq_nil :
    ∀ (threat : RemoteCellularThreat) (o : Option CoordinationAlert) (b : Bool),
      (((if b = true then [ServerReply.high_priority_alert threat] else []) ++
        coordination_messages o).filter is_ack) = [] := by
  intro threat o b
  cases b <;> cases o <;> simp [coordination_messages, is_ack]

/-- C4.  A registered device submitting the same cellular_threat message
twice leaves exactly one stored row with that threat_id, and each of the
two submissions is answered by exactly one threat_acknowledged reply. -/
theorem duplicate_threat_idempotent :
    ∀ (now1 now2 : Int) (st : ServerState) (dev : String) (msg : ThreatMsg),
      dev ∈ st.connected_devices →
      (((handle_cellular_threat now2 (handle_cellular_threat now1 st dev msg).1 dev msg).1.db.filter
          (fun r => r.threat_id == msg.threat_id)).length = 1 ∧
       (handle_cellular_threat now1 st dev msg).2.filter is_ack =
         [ServerReply.threat_acknowledged msg.threat_id] ∧
       (handle_cellular_threat now2 (handle_cellular_threat now1 st dev msg).1 dev msg).2.filter
           is_ack = [ServerReply.threat_acknowledged msg.threat_id]) := by
  intro now1 now2 st dev msg hdev
  refine ⟨?_, ?_, ?_⟩
  · exact store_threat_count (store_threat st.db (mk_remote_threat dev msg))
      (mk_remote_threat dev msg)
  · simp only [handle_cellular_threat]
    rw [if_pos hdev, if_pos hdev]
    rw [List.filter_append, is_ack_filter_eq_nil]
    simp only [List.nil_append, List.filter_cons, is_ack, if_true, List.filter_nil]
    rfl
  · simp only [handle_cellular_threat]
    rw [if_pos hdev, if_pos hdev]
    rw [List.filter_append, is_ack_filter_eq_nil]
    simp only [List.nil_append, List.filter_cons, is_ack, if_true, List.filter_nil]
    rfl

/-- Concrete server state for the duplicate-submission witness. -/
def st_w : ServerState :=
  { connected_devices := ["D"], threat_history := [], db := [] }

/-- Concrete cellular_threat message for the duplicate-submission
witness. -/
def msg_w : ThreatMsg :=
  { threat_id := "t1", threat_type := "IMSI_CATCHER_SUSPECTED", severity := "high",
    timestamp := 0, description := "", confidence := 0 }

/-- Witness for duplicate_threat_idempotent at a concrete registered
device. -/
theorem duplicate_threat_idempotent_witness :
    ((handle_cellular_threat 1 (handle_cellular_threat 0 st_w "D" msg_w).1 "D" msg_w).1.db.filter
        (fun r => r.threat_id == msg_w.threat_id)).length = 1 ∧
    (handle_cellular_threat 0 st_w "D" msg_w).2.filter is_ack =
      [ServerReply.threat_acknowledged msg_w.threat_id] ∧
    (handle_cellular_threat 1 (handle_cellular_threat 0 st_w "D" msg_w).1 "D" msg_w).2.filter
        is_ack = [ServerReply.threat_acknowledged msg_w.threat_id] :=
  duplicate_threat_idempotent 0 1 st_w "D" msg_w (by decide)

end Clutch
